import Mathlib

/-!
Verification development for the reaktoro-training repository: a set of
tutorial notebooks that assemble calls into the external Reaktoro
chemical-thermodynamics library.  Two layers are embedded here.

1. A statement inventory: every code cell of every notebook document is
   transcribed into a small statement language (`SKind`), faithful to the
   order of the cells.  Structural claims about the notebooks (what kinds
   of statements occur, in what order, with which declared inputs) are
   settled by decidable scans over this inventory.

2. A semantic model of the parts of the external library the notebooks
   rely on (chemical states, the equilibrium solver's mass-balance
   structure, the solubility loop).  The library's code is not part of
   the repository, so these definitions are modelled from the
   specification's description of the solver; each such definition says
   so in its doc comment.
-/

set_option maxRecDepth 8000

namespace Rkt

/-! ## Semantic model: species, amounts and linear totals -/

/-- A chemical species: name, elemental formula (element symbol with its
coefficient) and electric charge.  Mirrors the spec's data model of a
species loaded from a database. -/
structure Species where
  name : String
  elems : List (String × ℚ)
  charge : ℚ
deriving DecidableEq, Repr

/-- Coefficient of element `e` in the formula of species `sp`. -/
def elemCoeff (e : String) (sp : Species) : ℚ :=
  ((sp.elems.filter (fun p => p.1 == e)).map Prod.snd).sum

/-- Row of the formula matrix for element `e` over the system's species. -/
def elemRow (sys : List Species) (e : String) : List ℚ :=
  sys.map (elemCoeff e)

/-- Charge row of the formula matrix. -/
def chargeRow (sys : List Species) : List ℚ :=
  sys.map Species.charge

/-- Linear total of an amounts vector against a coefficient row:
the dot product of `row` with `n`. -/
def totalOf (row : List ℚ) (n : List ℚ) : ℚ :=
  (List.zipWith (· * ·) row n).sum

/-- Total amount of element `e` held by the amounts vector `n`. -/
def elementAmount (sys : List Species) (e : String) (n : List ℚ) : ℚ :=
  totalOf (elemRow sys e) n

/-- Total electric charge held by the amounts vector `n`. -/
def chargeAmount (sys : List Species) (n : List ℚ) : ℚ :=
  totalOf (chargeRow sys) n

/-- Componentwise sum of two amounts vectors. -/
def addVec (n v : List ℚ) : List ℚ :=
  List.zipWith (· + ·) n v

/-- Scaling of an amounts vector by a reaction extent. -/
def scaleVec (c : ℚ) (v : List ℚ) : List ℚ :=
  v.map (fun x => c * x)

theorem totalOf_nil (n : List ℚ) : totalOf [] n = 0 := rfl

theorem totalOf_addVec (row : List ℚ) :
    ∀ n v : List ℚ, n.length = row.length → v.length = row.length →
      totalOf row (addVec n v) = totalOf row n + totalOf row v := by
  induction row with
  | nil =>
      intro n v hn hv
      simp [totalOf]
  | cons r rs ih =>
      intro n v hn hv
      match n, v with
      | [], _ => simp at hn
      | _ :: _, [] => simp at hv
      | a :: as, b :: bs =>
          simp only [List.length_cons, Nat.succ.injEq] at hn hv
          simp only [totalOf, addVec, List.zipWith_cons_cons, List.sum_cons]
          have := ih as bs hn hv
          simp only [totalOf, addVec] at this
          rw [this]
          ring

theorem totalOf_scaleVec (row : List ℚ) :
    ∀ (c : ℚ) (v : List ℚ), totalOf row (scaleVec c v) = c * totalOf row v := by
  induction row with
  | nil => intro c v; simp [totalOf]
  | cons r rs ih =>
      intro c v
      match v with
      | [] => simp [totalOf, scaleVec]
      | b :: bs =>
          simp only [totalOf, scaleVec, List.map_cons, List.zipWith_cons_cons,
            List.sum_cons]
          have := ih c bs
          simp only [totalOf, scaleVec] at this
          rw [this]
          ring

theorem addVec_length (n v : List ℚ) :
    (addVec n v).length = min n.length v.length := by
  simp [addVec]

theorem scaleVec_length (c : ℚ) (v : List ℚ) :
    (scaleVec c v).length = v.length := by
  simp [scaleVec]

/-- Folding componentwise additions of vectors (all of the row's length)
adds the corresponding totals. -/
theorem totalOf_foldl_addVec (row : List ℚ) :
    ∀ (vs : List (List ℚ)) (n : List ℚ), n.length = row.length →
      (∀ v ∈ vs, v.length = row.length) →
      totalOf row (vs.foldl addVec n) =
        totalOf row n + (vs.map (totalOf row)).sum := by
  intro vs
  induction vs with
  | nil => intro n hn _; simp
  | cons v vs ih =>
      intro n hn hvs
      have hv : v.length = row.length := hvs v (List.mem_cons_self v vs)
      have hlen : (addVec n v).length = row.length := by
        rw [addVec_length, hn, hv, Nat.min_self]
      have hrest : ∀ w ∈ vs, w.length = row.length := by
        intro w hw; exact hvs w (List.mem_cons_of_mem v hw)
      simp only [List.foldl_cons, List.map_cons, List.sum_cons]
      rw [ih (addVec n v) hlen hrest, totalOf_addVec row n v hn hv]
      ring

/-! ## Modelled equilibrium solver (mass-balance structure) -/

/-- Modelled from the spec: the equilibrium solver is not part of this
repository (it lives in the external native library); the spec describes
it as minimizing Gibbs energy "subject to linear mass/charge balance"
while species the problem is opened to (titrants) may enter or leave.
Accordingly, the amounts vector returned by a solve differs from the
input amounts by a linear combination of reaction directions (each
conserving every element and the charge) plus the contribution vectors of
the declared titrants. -/
def solveAmounts (reactions : List (List ℚ)) (extents : List ℚ)
    (titrants : List (List ℚ)) (n : List ℚ) : List ℚ :=
  ((List.zipWith scaleVec extents reactions) ++ titrants).foldl addVec n

theorem zipWith_scaleVec_length (reactions : List (List ℚ)) (L : ℕ)
    (hr : ∀ r ∈ reactions, r.length = L) :
    ∀ (extents : List ℚ) (v : List ℚ),
      v ∈ List.zipWith scaleVec extents reactions → v.length = L := by
  induction reactions with
  | nil => intro extents v hv; simp at hv
  | cons r rs ih =>
      intro extents v hv
      match extents with
      | [] => simp at hv
      | c :: cs =>
          simp only [List.zipWith_cons_cons, List.mem_cons] at hv
          rcases hv with h | h
          · rw [h, scaleVec_length]
            exact hr r (List.mem_cons_self r rs)
          · exact ih (fun w hw => hr w (List.mem_cons_of_mem r hw)) cs v h

theorem zipWith_scaleVec_total_zero (row : List ℚ) (reactions : List (List ℚ))
    (hz : ∀ r ∈ reactions, totalOf row r = 0) :
    ∀ (extents : List ℚ) (v : List ℚ),
      v ∈ List.zipWith scaleVec extents reactions → totalOf row v = 0 := by
  induction reactions with
  | nil => intro extents v hv; simp at hv
  | cons r rs ih =>
      intro extents v hv
      match extents with
      | [] => simp at hv
      | c :: cs =>
          simp only [List.zipWith_cons_cons, List.mem_cons] at hv
          rcases hv with h | h
          · rw [h, totalOf_scaleVec, hz r (List.mem_cons_self r rs), mul_zero]
          · exact ih (fun w hw => hz w (List.mem_cons_of_mem r hw)) cs v h

/-- Core balance lemma: any linear total whose row annihilates every
reaction direction changes across a solve exactly by the summed titrant
contributions. -/
theorem totalOf_solveAmounts (row : List ℚ) (reactions : List (List ℚ))
    (extents : List ℚ) (titrants : List (List ℚ)) (n : List ℚ)
    (hn : n.length = row.length)
    (hrlen : ∀ r ∈ reactions, r.length = row.length)
    (hrz : ∀ r ∈ reactions, totalOf row r = 0)
    (htlen : ∀ t ∈ titrants, t.length = row.length) :
    totalOf row (solveAmounts reactions extents titrants n) =
      totalOf row n + (titrants.map (totalOf row)).sum := by
  unfold solveAmounts
  have hall : ∀ v ∈ (List.zipWith scaleVec extents reactions) ++ titrants,
      v.length = row.length := by
    intro v hv
    rcases List.mem_append.mp hv with h | h
    · exact zipWith_scaleVec_length reactions row.length hrlen extents v h
    · exact htlen v h
  rw [totalOf_foldl_addVec row _ n hn hall]
  have hsz : ((List.zipWith scaleVec extents reactions).map (totalOf row)).sum = 0 := by
    apply List.sum_eq_zero
    intro x hx
    rcases List.mem_map.mp hx with ⟨v, hv, hvx⟩
    rw [← hvx]
    exact zipWith_scaleVec_total_zero row reactions hrz extents v hv
  rw [List.map_append, List.sum_append, hsz, zero_add]

theorem elemRow_length (sys : List Species) (e : String) :
    (elemRow sys e).length = sys.length := by
  simp [elemRow]

theorem chargeRow_length (sys : List Species) :
    (chargeRow sys).length = sys.length := by
  simp [chargeRow]

/-! ## Concrete system of the fixed-pH notebook -/

/-- The eight aqueous species of `equilibrium-with-fixed-ph.ipynb`
(`AqueousPhase("H2O H+ OH- Na+ Cl- HCO3- CO2 CO3-2")`), with their real
elemental formulas and charges. -/
def fixedPhSystem : List Species :=
  [ ⟨"H2O", [("H", 2), ("O", 1)], 0⟩,
    ⟨"H+", [("H", 1)], 1⟩,
    ⟨"OH-", [("H", 1), ("O", 1)], -1⟩,
    ⟨"Na+", [("Na", 1)], 1⟩,
    ⟨"Cl-", [("Cl", 1)], -1⟩,
    ⟨"HCO3-", [("H", 1), ("C", 1), ("O", 3)], -1⟩,
    ⟨"CO2", [("C", 1), ("O", 2)], 0⟩,
    ⟨"CO3-2", [("C", 1), ("O", 3)], -2⟩ ]

/-- Water dissociation H2O = H+ + OH-, as a direction over
`fixedPhSystem`. -/
def rxnWaterDissociation : List ℚ := [-1, 1, 1, 0, 0, 0, 0, 0]

/-- CO2 hydration CO2 + H2O = HCO3- + H+, as a direction over
`fixedPhSystem`. -/
def rxnCO2Hydration : List ℚ := [-1, 1, 0, 0, 0, 1, -1, 0]

/-- Initial species amounts of the fixed-pH notebook state (1 kg water,
1 mol NaCl, 0.4 mol CO2, the unset species at the default 1e-16 mol). -/
def fixedPhInitialAmounts : List ℚ :=
  [ 55506/1000, 1/10^16, 1/10^16, 1, 1, 1/10^16, 4/10, 1/10^16 ]

/-- Titrant vector of the fixed-pH problem: under the pH constraint the
system is open to H+ only; the printed final state shows 0.12292 mol of
H+ titrated in. -/
def fixedPhTitrant : List ℚ := [0, 12292/100000, 0, 0, 0, 0, 0, 0]

/-- Claim C1: across an equilibrium solve, the total amount of each
chemical element and the total electric charge change exactly by the
contributions of the species the problem is explicitly opened to
(titrants); in particular, an element (or the charge) carried by no
titrant is conserved. -/
theorem C1_element_charge_conserved_except_open_species
    (sys : List Species) (e : String)
    (reactions titrants : List (List ℚ)) (extents : List ℚ) (n : List ℚ)
    (hn : n.length = sys.length)
    (hrlen : ∀ r ∈ reactions, r.length = sys.length)
    (hrelem : ∀ r ∈ reactions, elementAmount sys e r = 0)
    (hrchg : ∀ r ∈ reactions, chargeAmount sys r = 0)
    (htlen : ∀ t ∈ titrants, t.length = sys.length) :
    elementAmount sys e (solveAmounts reactions extents titrants n) =
        elementAmount sys e n + (titrants.map (elementAmount sys e)).sum ∧
    chargeAmount sys (solveAmounts reactions extents titrants n) =
        chargeAmount sys n + (titrants.map (chargeAmount sys)).sum ∧
    ((∀ t ∈ titrants, elementAmount sys e t = 0) →
      elementAmount sys e (solveAmounts reactions extents titrants n) =
        elementAmount sys e n) ∧
    ((∀ t ∈ titrants, chargeAmount sys t = 0) →
      chargeAmount sys (solveAmounts reactions extents titrants n) =
        chargeAmount sys n) := by
  have he : elementAmount sys e (solveAmounts reactions extents titrants n) =
      elementAmount sys e n + (titrants.map (elementAmount sys e)).sum := by
    unfold elementAmount
    exact totalOf_solveAmounts (elemRow sys e) reactions extents titrants n
      (by rw [hn, elemRow_length])
      (fun r hr => by rw [hrlen r hr, elemRow_length])
      hrelem
      (fun t ht => by rw [htlen t ht, elemRow_length])
  have hc : chargeAmount sys (solveAmounts reactions extents titrants n) =
      chargeAmount sys n + (titrants.map (chargeAmount sys)).sum := by
    unfold chargeAmount
    exact totalOf_solveAmounts (chargeRow sys) reactions extents titrants n
      (by rw [hn, chargeRow_length])
      (fun r hr => by rw [hrlen r hr, chargeRow_length])
      hrchg
      (fun t ht => by rw [htlen t ht, chargeRow_length])
  refine ⟨he, hc, ?_, ?_⟩
  · intro hz
    rw [he, List.sum_eq_zero, add_zero]
    intro x hx
    rcases List.mem_map.mp hx with ⟨t, ht, hxt⟩
    rw [← hxt]
    exact hz t ht
  · intro hz
    rw [hc, List.sum_eq_zero, add_zero]
    intro x hx
    rcases List.mem_map.mp hx with ⟨t, ht, hxt⟩
    rw [← hxt]
    exact hz t ht

/-- Witness for C1 on the fixed-pH notebook system: the pH constraint
opens the system to H+ only, so carbon is conserved across the solve. -/
theorem C1_element_charge_conserved_except_open_species_witness :
    elementAmount fixedPhSystem "C"
        (solveAmounts [rxnWaterDissociation, rxnCO2Hydration] [1/1000, 22/10000]
          [fixedPhTitrant] fixedPhInitialAmounts) =
      elementAmount fixedPhSystem "C" fixedPhInitialAmounts :=
  (C1_element_charge_conserved_except_open_species fixedPhSystem "C"
      [rxnWaterDissociation, rxnCO2Hydration] [fixedPhTitrant]
      [1/1000, 22/10000] fixedPhInitialAmounts
      (by simp [fixedPhInitialAmounts, fixedPhSystem])
      (by simp [rxnWaterDissociation, rxnCO2Hydration, fixedPhSystem])
      (by simp [elementAmount, elemRow, elemCoeff, totalOf, fixedPhSystem,
            rxnWaterDissociation, rxnCO2Hydration, List.filter])
      (by simp [chargeAmount, chargeRow, totalOf, fixedPhSystem,
            rxnWaterDissociation, rxnCO2Hydration, List.filter])
      (by simp [fixedPhTitrant, fixedPhSystem])).2.2.1
    (by simp [elementAmount, elemRow, elemCoeff, totalOf, fixedPhSystem,
          fixedPhTitrant, List.filter])

/-! ## Modelled chemical state, conditions, solver result -/

/-- Mutable snapshot of temperature (K), pressure (Pa) and per-species
amounts (mol) for one system, as described by the spec's data model. -/
structure ChemicalState where
  temperature : ℚ
  pressure : ℚ
  amounts : List ℚ
deriving DecidableEq, Repr

/-- Conversion from degrees Celsius to Kelvin. -/
def kelvinOfCelsius (c : ℚ) : ℚ := c + 27315/100

/-- Modelled from the spec and the default-initialization note of
`creating-chemical-states.ipynb`: a freshly constructed
`ChemicalState(system)` starts at 25 degrees Celsius, 10^5 Pa, with every
species amount equal to the small positive value 10^-16 mol (never
exactly zero).  The note's Kelvin figure (273.15 K) contradicts its own
Celsius figure (25 degrees Celsius = 298.15 K); the model follows the
Celsius figure, which matches the library's documented default. -/
def ChemicalState.init (sys : List Species) : ChemicalState :=
  { temperature := kelvinOfCelsius 25
    pressure := 100000
    amounts := sys.map (fun _ => 1/10^16) }

/-- The gaseous system of the first cell of
`creating-chemical-states.ipynb`. -/
def creatingStatesSystem : List Species :=
  [ ⟨"CO2(g)", [("C", 1), ("O", 2)], 0⟩,
    ⟨"O2(g)", [("O", 2)], 0⟩,
    ⟨"H2(g)", [("H", 2)], 0⟩,
    ⟨"H2O(g)", [("H", 2), ("O", 1)], 0⟩,
    ⟨"CH4(g)", [("C", 1), ("H", 4)], 0⟩ ]

/-- Success flag container mirroring `result.optima`. -/
structure OptimaResult where
  succeeded : Bool
deriving DecidableEq, Repr

/-- The value returned by `solver.solve`: a result report carrying the
convergence flag (`result.optima.succeeded`), not a chemical state. -/
structure EquilibriumResultM where
  optima : OptimaResult
deriving DecidableEq, Repr

/-- Concrete numeric values for the inputs declared in a specs object:
optional temperature and pressure plus named input values. -/
structure ConditionsM where
  temperature : Option ℚ
  pressure : Option ℚ
  inputs : List (String × ℚ)
deriving DecidableEq, Repr

/-- Internal outcome of one run of the external minimizer: the converged
amounts and whether the optimizer succeeded. -/
structure SolveOutcome where
  amounts : List ℚ
  succeeded : Bool
deriving DecidableEq, Repr

/-- Modelled from the spec: `solver.solve(state, conditions)` overwrites
the caller-owned state in place with the converged temperature, pressure
and species amounts (declared conditions fix temperature/pressure where
given).  In this shallow embedding the in-place mutation is the returned
record that replaces the contents of the caller's single state slot. -/
def solveUpdate (out : SolveOutcome) (cond : ConditionsM)
    (s : ChemicalState) : ChemicalState :=
  { temperature := cond.temperature.getD s.temperature
    pressure := cond.pressure.getD s.pressure
    amounts := out.amounts }

/-- Modelled from the spec: the value `solver.solve` hands back to the
caller is only the result report with the success flag. -/
def solveReturn (out : SolveOutcome) : EquilibriumResultM :=
  ⟨⟨out.succeeded⟩⟩

/-- The caller's environment around a solve: one state slot (the object
passed to the solver) and the binding for the returned result. -/
structure CallerEnv where
  state : ChemicalState
  result : Option EquilibriumResultM
deriving DecidableEq, Repr

/-- One notebook solve statement `result = solver.solve(state, conditions)`:
the state slot is overwritten, the result binding receives the report. -/
def runSolveStep (out : SolveOutcome) (cond : ConditionsM)
    (env : CallerEnv) : CallerEnv :=
  { state := solveUpdate out cond env.state
    result := some (solveReturn out) }

/-- `state.props()`: the properties reachable from a state are computed
from that same state object (its temperature, pressure and amounts). -/
def stateProps (s : ChemicalState) : ℚ × ℚ × List ℚ :=
  (s.temperature, s.pressure, s.amounts)

/-! ## Modelled calcite solubility computation -/

/-- Modelled from the spec and the solubility notebook: equilibrating a
water state with an initial amount `n0` of calcite dissolves mineral
until saturation is reached (`cap`, the dissolution capacity of the given
water at the given temperature and pressure) or until the mineral is
exhausted, leaving `n0 - min n0 cap` mol of calcite. -/
def equilibratedCalciteAmount (cap n0 : ℚ) : ℚ :=
  n0 - min n0 cap

/-- The quantity recorded by `solubility_of_calcite`:
`n0Calcite - nCalcite`, the dissolved amount. -/
def dissolvedCalcite (cap n0 : ℚ) : ℚ :=
  n0 - equilibratedCalciteAmount cap n0

/-- The deltaCalcite entry appended by the source's
`solubility_of_calcite`, which fixes `n0Calcite = 10.0` mol. -/
def deltaCalciteRow (cap : ℚ) : ℚ :=
  dissolvedCalcite cap 10

/-! ## Modelled grid loop of the solubility notebook -/

/-- A row of the water/rainwater solubility dataframe. -/
structure GridRow where
  tempC : ℚ
  presBar : ℚ
  delta : ℚ
deriving DecidableEq, Repr

/-- The loop environment of the solubility notebook: the specs object
(its declared inputs), the solver (the specs it was compiled from) and
the single shared conditions object, all built once before the grid. -/
structure LoopEnv where
  specsInputs : List String
  solverSpecs : List String
  conditions : ConditionsM
deriving DecidableEq, Repr

/-- `conditions.temperature(T); conditions.pressure(P)`: the only writes
the loop body performs on the shared conditions object. -/
def setTP (c : ConditionsM) (T P : ℚ) : ConditionsM :=
  { c with temperature := some T, pressure := some P }

/-- One iteration of the solubility grid: reset temperature and pressure
on the shared conditions, then solve (the oracle stands for the external
minimizer's answer for those conditions) and record a dataframe row.
The solve reads the conditions and writes only the state. -/
def gridStep (oracle : ConditionsM → ℚ) (env : LoopEnv) (TP : ℚ × ℚ) :
    LoopEnv × GridRow :=
  let c := setTP env.conditions TP.1 TP.2
  ({ env with conditions := c },
   ⟨TP.1, TP.2, dissolvedCalcite (oracle c) 10⟩)

/-- The whole temperature/pressure grid of sequential solves, reusing the
one specs/conditions/solver triple. -/
def runGrid (oracle : ConditionsM → ℚ) (env : LoopEnv) :
    List (ℚ × ℚ) → LoopEnv × List GridRow
  | [] => (env, [])
  | p :: ps =>
      let step := gridStep oracle env p
      let rest := runGrid oracle step.1 ps
      (rest.1, step.2 :: rest.2)

/-! ## Modelled flag inspection after a solve -/

/-- Observable events of the cells that inspect the solver's flag. -/
inductive TraceEv where
  | solveEv
  | printEv (msg : String)
  | propsEv
deriving DecidableEq, Repr

/-- Whether a trace event is an invocation of the solver. -/
def isSolveEv : TraceEv → Bool
  | .solveEv => true
  | _ => false

/-- Modelled from `equilibrium-with-fixed-fugacity.ipynb`:
`result = solver.solve(state, conditions)` followed by the conditional
message print, the state table print and the properties cell.  The flag
only selects the message; no branch re-invokes the solver or stops the
cell sequence. -/
def checkedSolveTrace (succeeded : Bool) : List TraceEv :=
  [ .solveEv,
    .printEv (if succeeded then "Successful computation!"
              else "Computation has failed!"),
    .printEv "EQUILIBRIUM STATE",
    .propsEv ]

/-! ## Statement inventory of the notebooks

Every code cell of every notebook document is transcribed below into the
statement language `SKind`, in source order.  Object variables are given
names unique within a document (a source variable rebound to a new object
gets a numbered suffix), so that the scans below can track construction
and use without shadowing. -/

inductive SKind where
  | importLib (libName : String)
  | mkDatabase (v file : String)
  | mkPhase (v : String)
  | phaseConfigure (phase : String)
  | mkSystem (v dbv : String) (phases : List String)
  | systemMutation (v : String)
  | mkState (v sysv : String)
  | stateSetter (statev : String)
  | mkSpecs (v sysv : String)
  | specsDeclareInput (v inputName : String)
  | specsOpenTo (v species : String)
  | specsAddConstraint (v cid : String)
  | mkConditions (v specsv : String)
  | condSetInput (v inputName : String)
  | condSetBound (v unknown : String)
  | mkSolverFromSpecs (v specsv : String)
  | mkSolverFromSystem (v sysv : String)
  | solveCall (solverv statev : String) (condv : Option String)
  | equilibrateCall (statev : String)
  | inspectSucceeded (resv : String)
  | mkPropsFromState (v statev : String)
  | mkPropsFromSystem (v sysv : String)
  | propsUpdate (v statev : String)
  | mkMaterial (v sysv : String)
  | mkMaterialMix (v a b : String)
  | materialEquilibrate (v matv : String)
  | libraryQuery
  | printTable
  | plotCell
  | dataFrameOp
  | glueArith
  | taskPlaceholder
  | retrySolve (solverv : String)
  | algorithmicImpl (desc : String)
deriving DecidableEq, Repr

/-- A notebook document: its name and its code statements in order. -/
structure Doc where
  name : String
  stmts : List SKind
deriving DecidableEq, Repr

/-- Object variables a statement requires to exist already. -/
def needs : SKind → List String
  | .phaseConfigure p => [p]
  | .mkSystem _ dbv ps => dbv :: ps
  | .systemMutation v => [v]
  | .mkState _ s => [s]
  | .stateSetter s => [s]
  | .mkSpecs _ s => [s]
  | .specsDeclareInput v _ => [v]
  | .specsOpenTo v _ => [v]
  | .specsAddConstraint v _ => [v]
  | .mkConditions _ s => [s]
  | .condSetInput v _ => [v]
  | .condSetBound v _ => [v]
  | .mkSolverFromSpecs _ s => [s]
  | .mkSolverFromSystem _ s => [s]
  | .solveCall sv stv cv => sv :: stv :: cv.toList
  | .equilibrateCall st => [st]
  | .mkPropsFromState _ st => [st]
  | .mkPropsFromSystem _ s => [s]
  | .propsUpdate v st => [v, st]
  | .mkMaterial _ s => [s]
  | .mkMaterialMix _ a b => [a, b]
  | .materialEquilibrate _ m => [m]
  | .retrySolve sv => [sv]
  | _ => []

/-- Object variables a statement constructs. -/
def binds : SKind → List String
  | .mkDatabase v _ => [v]
  | .mkPhase v => [v]
  | .mkSystem v _ _ => [v]
  | .mkState v _ => [v]
  | .mkSpecs v _ => [v]
  | .mkConditions v _ => [v]
  | .mkSolverFromSpecs v _ => [v]
  | .mkSolverFromSystem v _ => [v]
  | .mkPropsFromState v _ => [v]
  | .mkPropsFromSystem v _ => [v]
  | .mkMaterial v _ => [v]
  | .mkMaterialMix v _ _ => [v]
  | .materialEquilibrate v _ => [v]
  | _ => []

/-- Dependency order: every statement only refers to objects that were
constructed earlier in the document. -/
def depOrderedAux : List String → List SKind → Bool
  | _, [] => true
  | known, s :: rest =>
      (needs s).all known.contains &&
      depOrderedAux (binds s ++ known) rest

def depOrdered (l : List SKind) : Bool :=
  depOrderedAux [] l

/-- Whether a statement performs an equilibrium solve. -/
def isSolveStmt : SKind → Bool
  | .solveCall _ _ _ => true
  | .equilibrateCall _ => true
  | .materialEquilibrate _ _ => true
  | _ => false

/-- The claim C6 reading of the pipeline: dependency order plus the
requirement that property objects are computed from a state only after a
solve has produced an equilibrated state. -/
def strictOrderedAux : List String → Bool → List SKind → Bool
  | _, _, [] => true
  | known, solved, s :: rest =>
      let okStage : Bool :=
        match s with
        | .mkPropsFromState _ _ => solved
        | .propsUpdate _ _ => solved
        | _ => true
      (needs s).all known.contains && okStage &&
      strictOrderedAux (binds s ++ known) (solved || isSolveStmt s) rest

def strictOrdered (l : List SKind) : Bool :=
  strictOrderedAux [] false l

/-- Whether a statement is pure assembly: a call into the external
library, a print, a plot, a dataframe operation, or arithmetic glue on
fetched values — never an in-repo algorithmic implementation. -/
def isAssemblyOnly : SKind → Bool
  | .algorithmicImpl _ => false
  | _ => true

def isInspectSucceeded : SKind → Bool
  | .inspectSucceeded _ => true
  | _ => false

def isRetrySolve : SKind → Bool
  | .retrySolve _ => true
  | _ => false

def isSystemMutation : SKind → Bool
  | .systemMutation _ => true
  | _ => false

def isMkSystem : SKind → Bool
  | .mkSystem _ _ _ => true
  | _ => false

/-! Scan for claim C5: inputs set on a conditions object must have been
declared on the specs object that conditions object was built from. -/

structure CondScan where
  declared : List (String × String)
  condOf : List (String × String)
  valuesOk : Bool
  boundsOk : Bool

def lookupSpecsOf (m : List (String × String)) (c : String) : Option String :=
  (m.find? (fun p => p.1 == c)).map Prod.snd

def condStep (st : CondScan) (s : SKind) : CondScan :=
  match s with
  | .specsDeclareInput v i => { st with declared := (v, i) :: st.declared }
  | .mkConditions v sp => { st with condOf := (v, sp) :: st.condOf }
  | .condSetInput c i =>
      let ok :=
        match lookupSpecsOf st.condOf c with
        | some sp => st.declared.contains (sp, i)
        | none => false
      { st with valuesOk := st.valuesOk && ok }
  | .condSetBound c i =>
      let ok :=
        match lookupSpecsOf st.condOf c with
        | some sp => st.declared.contains (sp, i)
        | none => false
      { st with boundsOk := st.boundsOk && ok }
  | _ => st

def condScan (l : List SKind) : CondScan :=
  l.foldl condStep ⟨[], [], true, true⟩

/-- Numeric values are set only for declared inputs. -/
def condValuesDeclared (l : List SKind) : Bool :=
  (condScan l).valuesOk

/-- The claim C5 reading: numeric values AND bounds are set only for
declared inputs. -/
def condClaimStrict (l : List SKind) : Bool :=
  (condScan l).valuesOk && (condScan l).boundsOk

/-- Every conditions object is constructed from exactly one specs object
and no two conditions objects share a specs object. -/
def conditionsPairedOneToOne (l : List SKind) : Bool :=
  let cs := l.filterMap (fun s =>
    match s with
    | .mkConditions v sp => some (v, sp)
    | _ => none)
  ((cs.map Prod.fst).dedup.length == cs.length) &&
  ((cs.map Prod.snd).dedup.length == cs.length)

/-! Scan for claim C7: a phase object is configured (activity model,
name) only before it is consumed by a ChemicalSystem construction. -/

def phaseCfgAux : List String → List SKind → Bool
  | _, [] => true
  | consumed, .phaseConfigure p :: rest =>
      !consumed.contains p && phaseCfgAux consumed rest
  | consumed, .mkSystem _ _ ps :: rest => phaseCfgAux (ps ++ consumed) rest
  | consumed, _ :: rest => phaseCfgAux consumed rest

def phaseCfgOk (l : List SKind) : Bool :=
  phaseCfgAux [] l

/-- Phase variable lists of the system constructions of a document. -/
def systemsIn (l : List SKind) : List (List String) :=
  l.filterMap (fun s =>
    match s with
    | .mkSystem _ _ ps => some ps
    | _ => none)

/-- Changing activity models proceeds by building new phase objects and a
new system: the document constructs at least two systems, the second from
freshly built phases (disjoint from the first system's), each configured
with its activity model. -/
def rebuildPattern (l : List SKind) : Bool :=
  match systemsIn l with
  | ps1 :: ps2 :: _ =>
      ps2.all (fun p => !ps1.contains p) &&
      ps2.all (fun p => l.contains (.phaseConfigure p))
  | _ => false

/-! ### Transcribed documents -/

/-- `overview.ipynb`: markdown only, no code cells. -/
def overviewDoc : Doc := ⟨"overview", []⟩

/-- `tutorials/applications/evian-water-analysis.ipynb`. -/
def evianDoc : Doc :=
  ⟨"evian-water-analysis",
   [ -- cell 1
     .importLib "reaktoro", .importLib "math",
     .mkDatabase "db" "phreeqc.dat",
     .mkPhase "aqueousphase", .phaseConfigure "aqueousphase",
     .mkPhase "gaseousphase", .phaseConfigure "gaseousphase",
     .mkPhase "minerals",
     .mkSystem "system" "db" ["aqueousphase", "gaseousphase", "minerals"],
     .mkSpecs "specs" "system",
     .specsDeclareInput "specs" "T", .specsDeclareInput "specs" "P",
     .specsDeclareInput "specs" "pH",
     .mkSolverFromSpecs "solver" "specs",
     .mkConditions "conditions" "specs",
     .condSetInput "conditions" "T", .condSetInput "conditions" "P",
     .condSetInput "conditions" "pH",
     -- cell 3
     .mkState "state" "system",
     .stateSetter "state", .stateSetter "state", .stateSetter "state",
     .stateSetter "state", .stateSetter "state", .stateSetter "state",
     .stateSetter "state", .stateSetter "state", .stateSetter "state",
     .stateSetter "state",
     .solveCall "solver" "state" (some "conditions"),
     -- cell 5
     .mkPropsFromState "props" "state",
     .libraryQuery, .printTable,
     -- cells 7..8
     .taskPlaceholder, .printTable ]⟩

/-- `ph-dependence-on-co2-addition-in-seawater.ipynb`, first document. -/
def phco2seaDoc0 : Doc :=
  ⟨"ph-dependence-on-co2-addition-in-seawater-0",
   [ -- cell 2
     .importLib "reaktoro", .importLib "pandas",
     .mkDatabase "db" "phreeqc.dat",
     .mkPhase "aqueousphase", .phaseConfigure "aqueousphase",
     .mkPhase "gaseousphase", .phaseConfigure "gaseousphase",
     .mkSystem "system" "db" ["aqueousphase", "gaseousphase"],
     .mkSolverFromSystem "solver" "system",
     -- cell 4
     .mkState "state" "system",
     .stateSetter "state", .stateSetter "state", .stateSetter "state",
     .stateSetter "state", .stateSetter "state", .stateSetter "state",
     .stateSetter "state", .stateSetter "state", .stateSetter "state",
     .stateSetter "state",
     .solveCall "solver" "state" none,
     .mkPropsFromState "aprops" "state",
     .printTable,
     -- cell 6 (loop over 50 CO2 additions)
     .glueArith, .dataFrameOp,
     .stateSetter "state",
     .solveCall "solver" "state" none,
     .propsUpdate "aprops" "state",
     .glueArith, .dataFrameOp,
     -- cell 8
     .importLib "bokeh", .plotCell ]⟩

/-- `ph-dependence-on-co2-addition-in-seawater.ipynb`, second document. -/
def phco2seaDoc1 : Doc :=
  ⟨"ph-dependence-on-co2-addition-in-seawater-1",
   [ -- cell 1
     .importLib "reaktoro",
     .mkDatabase "db" "phreeqc.dat",
     .mkPhase "solution", .phaseConfigure "solution",
     .mkPhase "gases", .phaseConfigure "gases",
     .mkPhase "minerals",
     .mkSystem "system" "db" ["solution", "gases", "minerals"],
     .mkState "state" "system",
     .stateSetter "state", .stateSetter "state", .stateSetter "state",
     .stateSetter "state", .stateSetter "state", .stateSetter "state",
     .stateSetter "state", .stateSetter "state",
     .equilibrateCall "state",
     .printTable,
     -- cell 3
     .mkPropsFromState "aprops" "state",
     .printTable,
     -- cells 5, 7
     .taskPlaceholder, .taskPlaceholder ]⟩

/-- `ph-dependence-on-co2-addition-in-seawater.ipynb`, third document
(standard properties of CO2(aq); no chemical system is built). -/
def phco2seaDoc2 : Doc :=
  ⟨"ph-dependence-on-co2-addition-in-seawater-2",
   [ -- cell 1
     .importLib "reaktoro",
     .mkDatabase "db" "phreeqc.dat",
     .libraryQuery,
     -- cell 3
     .printTable, .libraryQuery,
     -- cell 5
     .taskPlaceholder,
     -- cell 7 (loop over temperatures)
     .importLib "numpy", .glueArith,
     .libraryQuery, .libraryQuery, .glueArith,
     -- cells 10, 12
     .importLib "bokeh", .plotCell,
     -- cell 14
     .taskPlaceholder,
     -- cell 16
     .libraryQuery, .libraryQuery, .printTable,
     -- cell 18
     .taskPlaceholder ]⟩

/-- `ph-dependence-on-contaminants-in-water.ipynb`. -/
def phcontamDoc : Doc :=
  ⟨"ph-dependence-on-contaminants-in-water",
   [ -- cell 1
     .importLib "reaktoro", .importLib "pandas",
     .mkDatabase "db" "phreeqc.dat",
     .mkPhase "aqueousphase", .phaseConfigure "aqueousphase",
     .mkSystem "system" "db" ["aqueousphase"],
     .mkState "state" "system",
     .stateSetter "state", .stateSetter "state", .stateSetter "state",
     .mkSolverFromSystem "solver" "system",
     .solveCall "solver" "state" none,
     .mkPropsFromState "aprops" "state",
     .printTable,
     -- cell 3 (loop over 50 HCl additions)
     .glueArith, .dataFrameOp,
     .stateSetter "state", .stateSetter "state",
     .solveCall "solver" "state" none,
     .propsUpdate "aprops" "state",
     .glueArith, .dataFrameOp,
     -- cell 5 (fresh water state, loop over 50 NH3 additions)
     .mkState "state2" "system",
     .stateSetter "state2", .stateSetter "state2", .stateSetter "state2",
     .solveCall "solver" "state2" none,
     .propsUpdate "aprops" "state2",
     .glueArith, .dataFrameOp,
     .stateSetter "state2",
     .solveCall "solver" "state2" none,
     .propsUpdate "aprops" "state2",
     .glueArith, .dataFrameOp,
     -- cells 7, 9
     .importLib "bokeh", .plotCell ]⟩

/-- `tutorials/basics/creating-chemical-states.ipynb`, first document. -/
def statesDoc0 : Doc :=
  ⟨"creating-chemical-states-0",
   [ -- cell 1
     .importLib "reaktoro",
     .mkDatabase "db" "phreeqc.dat",
     .mkPhase "gases",
     .mkSystem "system" "db" ["gases"],
     .mkState "state" "system",
     .stateSetter "state", .stateSetter "state", .stateSetter "state",
     .stateSetter "state", .stateSetter "state", .stateSetter "state",
     .stateSetter "state",
     .printTable,
     -- cell 4
     .taskPlaceholder,
     -- cell 6
     .mkDatabase "db2" "pitzer.dat",
     .mkPhase "solution", .mkPhase "minerals",
     .mkSystem "system2" "db2" ["solution", "minerals"],
     .mkState "state2" "system2",
     .stateSetter "state2",
     .stateSetter "state2", .stateSetter "state2",
     .printTable,
     -- cell 8
     .printTable, .libraryQuery ]⟩

/-- `tutorials/basics/creating-chemical-states.ipynb`, second document
(defining chemical systems). -/
def statesDoc1 : Doc :=
  ⟨"creating-chemical-states-1",
   [ -- cell 2
     .importLib "reaktoro",
     .mkDatabase "db" "phreeqc.dat",
     .mkPhase "solution", .mkPhase "halite",
     .mkSystem "system" "db" ["solution", "halite"],
     -- cells 4, 6, 8
     .printTable, .printTable, .libraryQuery, .printTable,
     -- cell 11
     .mkPhase "solution2", .mkPhase "gas",
     .mkSystem "system2" "db" ["solution2", "gas"],
     -- cell 13
     .printTable,
     -- cell 17
     .glueArith,
     .mkPhase "solution3", .mkPhase "gas2",
     .mkSystem "system3" "db" ["solution3", "gas2"],
     .printTable,
     -- cell 19
     .mkPhase "solution4", .mkPhase "gas3", .mkPhase "pureminerals",
     .mkPhase "solidsolution", .phaseConfigure "solidsolution",
     .mkSystem "system4" "db"
       ["solution4", "gas3", "pureminerals", "solidsolution"],
     .printTable,
     -- cell 21
     .taskPlaceholder,
     -- cell 23
     .mkPhase "condensed", .mkPhase "gases2",
     .mkSystem "system5" "db" ["gases2", "condensed"],
     .printTable, .printTable,
     -- cell 26
     .taskPlaceholder ]⟩

/-- `tutorials/basics/databases.ipynb`. -/
def databasesDoc : Doc :=
  ⟨"databases",
   [ -- cell 1
     .importLib "reaktoro",
     .mkDatabase "db" "pitzer.dat",
     -- cells 3..15
     .libraryQuery, .printTable,
     .libraryQuery, .printTable,
     .libraryQuery, .printTable,
     .taskPlaceholder,
     .printTable,
     .libraryQuery, .printTable,
     .taskPlaceholder ]⟩

/-- `tutorials/basics/defining-materials.ipynb`. -/
def materialsDoc : Doc :=
  ⟨"defining-materials",
   [ -- cell 2
     .importLib "reaktoro",
     .mkDatabase "db" "phreeqc.dat",
     .mkPhase "solution", .phaseConfigure "solution",
     .mkPhase "minerals",
     .mkSystem "system" "db" ["solution", "minerals"],
     -- cell 4
     .taskPlaceholder,
     -- cell 6
     .mkState "state" "system",
     .stateSetter "state", .stateSetter "state", .stateSetter "state",
     .stateSetter "state", .stateSetter "state", .stateSetter "state",
     .stateSetter "state", .stateSetter "state",
     .stateSetter "state", .stateSetter "state",
     -- cell 8
     .stateSetter "state", .stateSetter "state",
     .equilibrateCall "state",
     .printTable,
     -- cell 10
     .mkMaterial "brine" "system",
     .stateSetter "brine", .stateSetter "brine", .stateSetter "brine",
     .stateSetter "brine", .stateSetter "brine",
     .mkMaterial "rock" "system",
     .stateSetter "rock", .stateSetter "rock",
     .mkMaterialMix "mix" "brine" "rock",
     .materialEquilibrate "state2" "mix",
     .printTable ]⟩

/-- `equilibrium-with-custom-constraints.ipynb`. -/
def customconDoc : Doc :=
  ⟨"equilibrium-with-custom-constraints",
   [ -- cell 2
     .importLib "reaktoro",
     .mkDatabase "db" "llnl.dat",
     .mkPhase "gases",
     .mkSystem "system" "db" ["gases"],
     .mkState "state" "system",
     .stateSetter "state", .stateSetter "state", .stateSetter "state",
     .stateSetter "state", .stateSetter "state",
     .mkPropsFromState "props0" "state",
     .libraryQuery, .glueArith,
     -- cell 4
     .mkSpecs "specs" "system",
     .specsDeclareInput "specs" "V",
     .specsDeclareInput "specs" "U",
     .specsAddConstraint "specs" "VolumeConstraint",
     .specsAddConstraint "specs" "InternalEnergyConstraint",
     .mkSolverFromSpecs "solver" "specs",
     -- cell 6
     .mkConditions "conditions" "specs",
     .condSetInput "conditions" "V",
     .condSetInput "conditions" "U",
     .condSetBound "conditions" "T", .condSetBound "conditions" "T",
     .condSetBound "conditions" "P", .condSetBound "conditions" "P",
     -- cell 8
     .solveCall "solver" "state" (some "conditions"),
     .printTable,
     -- cell 10
     .taskPlaceholder,
     -- cell 12
     .mkDatabase "db2" "phreeqc.dat",
     .mkPhase "solution", .phaseConfigure "solution",
     .mkPhase "gases2", .phaseConfigure "gases2",
     .mkPhase "calcite",
     .mkSystem "system2" "db2" ["solution", "gases2", "calcite"],
     -- cell 14
     .libraryQuery, .glueArith,
     -- cell 16
     .taskPlaceholder,
     -- cell 18
     .mkState "state2" "system2",
     .stateSetter "state2", .stateSetter "state2", .stateSetter "state2",
     .stateSetter "state2", .stateSetter "state2", .stateSetter "state2",
     .stateSetter "state2",
     -- cell 20
     .mkSpecs "specs2" "system2",
     .specsDeclareInput "specs2" "T", .specsDeclareInput "specs2" "P",
     .specsDeclareInput "specs2" "pH",
     .mkConditions "conditions2" "specs2",
     .condSetInput "conditions2" "T", .condSetInput "conditions2" "P",
     .condSetInput "conditions2" "pH",
     .mkSolverFromSpecs "solver2" "specs2",
     .solveCall "solver2" "state2" (some "conditions2"),
     .mkPropsFromState "aprops" "state2",
     .printTable,
     -- cell 22
     .taskPlaceholder ]⟩

/-- `equilibrium-with-fixed-fugacity.ipynb`. -/
def fugacityDoc : Doc :=
  ⟨"equilibrium-with-fixed-fugacity",
   [ -- cell 1
     .importLib "reaktoro",
     .mkDatabase "db" "phreeqc.dat",
     .mkPhase "solution", .phaseConfigure "solution",
     .mkPhase "calcite",
     .mkSystem "system" "db" ["solution", "calcite"],
     -- cell 3
     .mkSpecs "specs" "system",
     .specsDeclareInput "specs" "T", .specsDeclareInput "specs" "P",
     .specsDeclareInput "specs" "f(CO2(g))",
     .mkSolverFromSpecs "solver" "specs",
     .glueArith,
     .mkConditions "conditions" "specs",
     .condSetInput "conditions" "T", .condSetInput "conditions" "P",
     .condSetInput "conditions" "f(CO2(g))",
     -- cell 6
     .mkState "state" "system",
     .stateSetter "state", .stateSetter "state", .stateSetter "state",
     .stateSetter "state", .stateSetter "state", .stateSetter "state",
     .solveCall "solver" "state" (some "conditions"),
     .inspectSucceeded "result",
     .printTable,
     -- cell 8
     .mkPropsFromState "props" "state",
     .printTable,
     -- cell 10
     .mkPropsFromState "aprops" "state",
     .printTable,
     -- cell 12
     .importLib "math",
     .libraryQuery, .libraryQuery, .glueArith, .printTable ]⟩

/-- `equilibrium-with-fixed-ph-charge-balance.ipynb`. -/
def phchargeDoc : Doc :=
  ⟨"equilibrium-with-fixed-ph-charge-balance",
   [ -- cell 1
     .importLib "reaktoro",
     .mkDatabase "db" "phreeqc.dat",
     .mkPhase "solution", .phaseConfigure "solution",
     .mkSystem "system" "db" ["solution"],
     -- cell 3
     .mkSpecs "specs" "system",
     .specsDeclareInput "specs" "T", .specsDeclareInput "specs" "P",
     .specsDeclareInput "specs" "pH",
     .specsDeclareInput "specs" "charge",
     .specsOpenTo "specs" "Cl-",
     .mkSolverFromSpecs "solver" "specs",
     -- cell 5
     .mkState "state" "system",
     .stateSetter "state", .stateSetter "state", .stateSetter "state",
     .stateSetter "state", .stateSetter "state", .stateSetter "state",
     .printTable,
     -- cell 7
     .mkConditions "conditions" "specs",
     .condSetInput "conditions" "T", .condSetInput "conditions" "P",
     .condSetInput "conditions" "pH", .condSetInput "conditions" "charge",
     .solveCall "solver" "state" (some "conditions"),
     .inspectSucceeded "result",
     .printTable,
     -- cell 9
     .taskPlaceholder ]⟩

/-- `equilibrium-with-fixed-ph.ipynb`. -/
def fixedphDoc : Doc :=
  ⟨"equilibrium-with-fixed-ph",
   [ -- cell 1
     .importLib "reaktoro",
     .mkDatabase "db" "pitzer.dat",
     .mkPhase "solution", .phaseConfigure "solution",
     .mkSystem "system" "db" ["solution"],
     -- cell 3
     .mkSpecs "specs" "system",
     .specsDeclareInput "specs" "T", .specsDeclareInput "specs" "P",
     .specsDeclareInput "specs" "pH",
     .mkSolverFromSpecs "solver" "specs",
     -- cell 5
     .mkState "state" "system",
     .stateSetter "state", .stateSetter "state", .stateSetter "state",
     .stateSetter "state", .stateSetter "state", .stateSetter "state",
     .printTable,
     -- cell 7
     .mkConditions "conditions" "specs",
     .condSetInput "conditions" "T", .condSetInput "conditions" "P",
     .condSetInput "conditions" "pH",
     .solveCall "solver" "state" (some "conditions"),
     .printTable,
     -- cell 9
     .mkPropsFromState "aprops" "state",
     .printTable,
     -- cell 11
     .taskPlaceholder ]⟩

/-- `equilibrium-with-fixed-phase-amount.ipynb`. -/
def phaseamountDoc : Doc :=
  ⟨"equilibrium-with-fixed-phase-amount",
   [ -- cell 1
     .importLib "reaktoro",
     .mkDatabase "db" "pitzer.dat",
     .mkPhase "solution", .phaseConfigure "solution",
     .mkPhase "gases", .phaseConfigure "gases",
     .mkSystem "system" "db" ["solution", "gases"],
     -- cell 3
     .mkState "state" "system",
     .stateSetter "state", .stateSetter "state", .stateSetter "state",
     .stateSetter "state", .stateSetter "state",
     .printTable,
     -- cell 5
     .mkSpecs "specs" "system",
     .specsDeclareInput "specs" "T",
     .specsDeclareInput "specs" "amountPhase(GaseousPhase)",
     .mkSolverFromSpecs "solver" "specs",
     .mkConditions "conditions" "specs",
     .condSetInput "conditions" "T",
     .condSetInput "conditions" "amountPhase(GaseousPhase)",
     .condSetBound "conditions" "P", .condSetBound "conditions" "P",
     .solveCall "solver" "state" (some "conditions"),
     .printTable,
     -- cell 7
     .taskPlaceholder ]⟩

/-- `equilibrium-with-fixed-volume-internal-energy.ipynb`, first
document. -/
def fixedvuDoc0 : Doc :=
  ⟨"equilibrium-with-fixed-volume-internal-energy-0",
   [ -- cell 1
     .importLib "reaktoro",
     .mkDatabase "db" "llnl.dat",
     .mkPhase "gases",
     .mkSystem "system" "db" ["gases"],
     -- cell 3
     .mkState "state" "system",
     .stateSetter "state", .stateSetter "state", .stateSetter "state",
     .stateSetter "state", .stateSetter "state",
     .printTable,
     -- cell 5
     .mkPropsFromState "props" "state",
     .libraryQuery, .glueArith, .printTable,
     -- cell 7
     .mkSpecs "specs" "system",
     .specsDeclareInput "specs" "V",
     .specsDeclareInput "specs" "U",
     .mkSolverFromSpecs "solver" "specs",
     .mkConditions "conditions" "specs",
     .condSetInput "conditions" "V",
     .condSetInput "conditions" "U",
     .condSetBound "conditions" "T", .condSetBound "conditions" "T",
     .condSetBound "conditions" "P", .condSetBound "conditions" "P",
     -- cell 10
     .solveCall "solver" "state" (some "conditions"),
     .printTable,
     -- cell 13
     .mkPropsFromState "props2" "state",
     .libraryQuery, .printTable,
     -- cell 15
     .glueArith, .printTable ]⟩

/-- `equilibrium-with-fixed-volume-internal-energy.ipynb`, second
document. -/
def fixedvuDoc1 : Doc :=
  ⟨"equilibrium-with-fixed-volume-internal-energy-1",
   [ -- cell 1
     .importLib "reaktoro",
     .mkDatabase "db" "llnl.dat",
     .mkPhase "gases",
     .mkSystem "system" "db" ["gases"],
     -- cell 3
     .mkState "state" "system",
     .stateSetter "state", .stateSetter "state", .stateSetter "state",
     .stateSetter "state",
     .printTable,
     -- cell 5
     .mkSolverFromSystem "solver" "system",
     .solveCall "solver" "state" none,
     .printTable,
     -- cell 8
     .mkState "state2" "system",
     .stateSetter "state2", .stateSetter "state2", .stateSetter "state2",
     .stateSetter "state2",
     .mkSolverFromSystem "solver2" "system",
     .solveCall "solver2" "state2" none,
     .inspectSucceeded "result" ]⟩

/-- `ion-exchnage-mix-porewater-extractant.ipynb`. -/
def ionexDoc : Doc :=
  ⟨"ion-exchnage-mix-porewater-extractant",
   [ -- cell 1
     .importLib "reaktoro",
     .mkDatabase "db" "phreeqc.dat",
     -- cell 3
     .mkPhase "solution", .phaseConfigure "solution",
     -- cell 5
     .mkPhase "exchange", .phaseConfigure "exchange",
     .mkSystem "system" "db" ["solution", "exchange"],
     .mkPropsFromSystem "aqprops" "system",
     .mkPropsFromSystem "exprops" "system",
     .mkSolverFromSystem "solver" "system",
     -- cell 7
     .mkState "state" "system",
     .stateSetter "state", .stateSetter "state", .stateSetter "state",
     .stateSetter "state", .stateSetter "state", .stateSetter "state",
     .stateSetter "state", .stateSetter "state",
     -- cell 9
     .solveCall "solver" "state" none,
     .propsUpdate "aqprops" "state",
     .propsUpdate "exprops" "state",
     -- cell 11
     .printTable, .libraryQuery,
     -- cell 13
     .glueArith,
     .stateSetter "state", .stateSetter "state", .stateSetter "state",
     .solveCall "solver" "state" none,
     .propsUpdate "aqprops" "state",
     .propsUpdate "exprops" "state",
     -- cell 15
     .printTable ]⟩

set_option maxHeartbeats 2000000 in
/-- `solubility-calcite-in-water-rainwater.ipynb`, first document.  The
bodies of the helper functions `water()`, `rainwater()`, `seawater()` and
`solubility_of_calcite(...)` are inlined at their call sites in the grid
loop, whose body appears once. -/
def calciteDoc0 : Doc :=
  ⟨"solubility-calcite-in-water-rainwater-0",
   [ -- cell 1
     .importLib "reaktoro", .importLib "numpy", .importLib "pandas",
     .mkDatabase "db" "phreeqc.dat",
     .mkPhase "aqueousphase", .phaseConfigure "aqueousphase",
     .mkPhase "gaseousphase", .phaseConfigure "gaseousphase",
     .mkPhase "mineral",
     .mkSystem "system" "db" ["aqueousphase", "gaseousphase", "mineral"],
     -- cell 3
     .mkSpecs "specs" "system",
     .specsDeclareInput "specs" "T", .specsDeclareInput "specs" "P",
     .specsDeclareInput "specs" "charge",
     .specsOpenTo "specs" "Cl-",
     .mkConditions "conditions" "specs",
     .condSetInput "conditions" "charge",
     .mkSolverFromSpecs "solver" "specs",
     .mkPropsFromSystem "aprops" "system",
     -- cell 7 (grid over temperatures and pressures; one iteration of
     -- solubility_of_calcite on water() then on rainwater())
     .glueArith, .dataFrameOp, .dataFrameOp,
     .mkState "state_w" "system",
     .stateSetter "state_w",
     .condSetInput "conditions" "T", .condSetInput "conditions" "P",
     .solveCall "solver" "state_w" (some "conditions"),
     .stateSetter "state_w",
     .solveCall "solver" "state_w" none,
     .propsUpdate "aprops" "state_w",
     .libraryQuery, .dataFrameOp,
     .mkState "state_r" "system",
     .stateSetter "state_r", .stateSetter "state_r", .stateSetter "state_r",
     .stateSetter "state_r", .stateSetter "state_r", .stateSetter "state_r",
     .stateSetter "state_r", .stateSetter "state_r", .stateSetter "state_r",
     .stateSetter "state_r",
     .condSetInput "conditions" "T", .condSetInput "conditions" "P",
     .solveCall "solver" "state_r" (some "conditions"),
     .stateSetter "state_r",
     .solveCall "solver" "state_r" none,
     .propsUpdate "aprops" "state_r",
     .libraryQuery, .dataFrameOp,
     -- cell 9
     .dataFrameOp, .printTable,
     -- cells 12, 14
     .importLib "bokeh", .plotCell, .plotCell,
     -- cell 16 (loop over 50 CO2 additions to seawater)
     .glueArith, .dataFrameOp,
     .condSetInput "conditions" "T", .condSetInput "conditions" "P",
     .mkState "state_s" "system",
     .stateSetter "state_s", .stateSetter "state_s", .stateSetter "state_s",
     .stateSetter "state_s", .stateSetter "state_s", .stateSetter "state_s",
     .stateSetter "state_s", .stateSetter "state_s", .stateSetter "state_s",
     .stateSetter "state_s", .stateSetter "state_s",
     .solveCall "solver" "state_s" (some "conditions"),
     .stateSetter "state_s",
     .solveCall "solver" "state_s" none,
     .propsUpdate "aprops" "state_s",
     .libraryQuery, .libraryQuery, .glueArith, .dataFrameOp,
     -- cell 18
     .plotCell ]⟩

/-- `solubility-calcite-in-water-rainwater.ipynb`, second document
(CO2 in a sparkling-water bottle). -/
def calciteDoc1 : Doc :=
  ⟨"solubility-calcite-in-water-rainwater-1",
   [ -- cell 1
     .importLib "reaktoro",
     .mkDatabase "db" "phreeqc.dat",
     .mkPhase "aqueousphase", .phaseConfigure "aqueousphase",
     .mkPhase "gaseousphase", .phaseConfigure "gaseousphase",
     .mkSystem "system" "db" ["aqueousphase", "gaseousphase"],
     .mkSolverFromSystem "solver" "system",
     -- cell 3
     .importLib "numpy", .glueArith,
     -- cell 5 (loop over 100 pressures)
     .importLib "pandas", .dataFrameOp,
     .mkState "state" "system",
     .stateSetter "state", .stateSetter "state", .stateSetter "state",
     .stateSetter "state",
     .solveCall "solver" "state" none,
     .libraryQuery, .dataFrameOp,
     -- cell 7
     .importLib "bokeh", .plotCell ]⟩

/-- `solubility-tablesalt-water.ipynb`, first document. -/
def tablesaltDoc0 : Doc :=
  ⟨"solubility-tablesalt-water-0",
   [ -- cell 1
     .importLib "reaktoro",
     .mkDatabase "db" "phreeqc.dat",
     .mkPhase "aqueousphase", .phaseConfigure "aqueousphase",
     .mkPhase "mineral",
     .mkSystem "system" "db" ["aqueousphase", "mineral"],
     -- cell 3
     .mkState "state" "system",
     .stateSetter "state", .stateSetter "state", .stateSetter "state",
     .stateSetter "state",
     -- cell 5
     .equilibrateCall "state",
     .printTable,
     -- cell 7
     .stateSetter "state",
     .libraryQuery, .printTable,
     .equilibrateCall "state",
     .libraryQuery, .printTable,
     -- cell 9
     .taskPlaceholder ]⟩

/-- `solubility-tablesalt-water.ipynb`, second document (anhydrite
solubility grid); the loop body appears once with `water_problem`
inlined. -/
def tablesaltDoc1 : Doc :=
  ⟨"solubility-tablesalt-water-1",
   [ -- cell 1
     .importLib "reaktoro", .importLib "numpy", .importLib "math",
     -- cell 3
     .mkDatabase "db" "phreeqc.dat",
     .mkPhase "aqueousphase", .phaseConfigure "aqueousphase",
     .mkPhase "minerals",
     .mkSystem "system" "db" ["aqueousphase", "minerals"],
     .mkPropsFromSystem "props" "system",
     .mkPropsFromSystem "aprops" "system",
     .mkSolverFromSystem "solver" "system",
     -- cell 5
     .libraryQuery,
     -- cell 9 (grid over pressures and temperatures)
     .importLib "pandas", .dataFrameOp, .glueArith,
     .mkState "state" "system",
     .stateSetter "state", .stateSetter "state", .stateSetter "state",
     .solveCall "solver" "state" none,
     .stateSetter "state",
     .solveCall "solver" "state" none,
     .propsUpdate "props" "state",
     .propsUpdate "aprops" "state",
     .libraryQuery, .libraryQuery, .libraryQuery, .libraryQuery,
     .glueArith, .dataFrameOp,
     -- cells 10..14
     .printTable,
     .dataFrameOp, .glueArith, .printTable,
     .dataFrameOp, .glueArith, .printTable,
     -- cell 16
     .importLib "bokeh", .plotCell ]⟩

/-- `unnamed/part_000` (chemical equilibrium with constraints overview
script). -/
def part000Doc : Doc :=
  ⟨"part000",
   [ -- cell 1
     .importLib "reaktoro",
     .mkDatabase "db" "llnl.dat",
     .mkPhase "gases",
     .mkSystem "system" "db" ["gases"],
     .mkSolverFromSystem "solver" "system",
     -- cell 4
     .mkState "state" "system",
     .stateSetter "state",
     -- cell 6
     .mkSpecs "specs" "system",
     .specsDeclareInput "specs" "T",
     .specsDeclareInput "specs" "V",
     .specsDeclareInput "specs" "P",
     .specsOpenTo "specs" "CH4",
     -- cell 8
     .mkConditions "conditions" "specs",
     .condSetInput "conditions" "T",
     .condSetInput "conditions" "V",
     .condSetInput "conditions" "P",
     .mkSolverFromSpecs "solver2" "specs",
     .solveCall "solver2" "state" (some "conditions"),
     .mkPropsFromState "props" "state",
     .printTable,
     -- cell 10
     .libraryQuery, .printTable ]⟩

set_option maxHeartbeats 2000000 in
/-- `unnamed/part_001`, first document (activity models). -/
def part001Doc0 : Doc :=
  ⟨"part001-0",
   [ -- cell 1
     .importLib "reaktoro",
     .mkDatabase "db" "phreeqc.dat",
     .mkPhase "solution1", .mkPhase "gases1", .mkPhase "solidsolution1",
     .mkPhase "ionexchange1",
     .mkSystem "system1" "db"
       ["solution1", "gases1", "solidsolution1", "ionexchange1"],
     -- cell 3 (fresh phase objects, now with activity models)
     .mkPhase "solution2", .phaseConfigure "solution2",
     .mkPhase "gases2", .phaseConfigure "gases2",
     .mkPhase "solidsolution2", .phaseConfigure "solidsolution2",
     .mkPhase "ionexchange2", .phaseConfigure "ionexchange2",
     .mkSystem "system2" "db"
       ["solution2", "gases2", "solidsolution2", "ionexchange2"],
     -- cell 6
     .mkPhase "solution3",
     .mkSystem "system3" "db" ["solution3"],
     -- cell 8
     .mkState "state1" "system3",
     .stateSetter "state1", .stateSetter "state1", .stateSetter "state1",
     .stateSetter "state1", .stateSetter "state1",
     .mkPropsFromState "props1" "state1",
     .printTable,
     -- cell 10
     .mkPhase "solution4", .phaseConfigure "solution4",
     .mkSystem "system4" "db" ["solution4"],
     .mkState "state2" "system4",
     .stateSetter "state2", .stateSetter "state2", .stateSetter "state2",
     .stateSetter "state2", .stateSetter "state2",
     .mkPropsFromState "props2" "state2",
     .printTable,
     -- cell 13
     .taskPlaceholder,
     -- cell 15
     .mkPhase "gases3", .phaseConfigure "gases3",
     .mkSystem "system5" "db" ["gases3"],
     -- cell 17
     .mkState "state3" "system5",
     .stateSetter "state3", .stateSetter "state3", .stateSetter "state3",
     .stateSetter "state3", .stateSetter "state3", .stateSetter "state3",
     .stateSetter "state3",
     .mkPropsFromState "props3" "state3",
     .printTable,
     -- cell 19
     .printTable,
     -- cell 22
     .glueArith,
     .mkPhase "solidsolution3", .phaseConfigure "solidsolution3",
     .mkSystem "system6" "db" ["solidsolution3"],
     .mkState "state4" "system6",
     .stateSetter "state4", .stateSetter "state4",
     .mkPropsFromState "props4" "state4",
     .printTable,
     -- cell 24
     .mkPhase "solution5", .phaseConfigure "solution5",
     .mkPhase "exchange5", .phaseConfigure "exchange5",
     .mkSystem "system7" "db" ["solution5", "exchange5"],
     .mkState "state5" "system7",
     .stateSetter "state5", .stateSetter "state5", .stateSetter "state5",
     .stateSetter "state5", .stateSetter "state5", .stateSetter "state5",
     .stateSetter "state5", .stateSetter "state5", .stateSetter "state5",
     .mkPropsFromState "props5" "state5",
     .printTable,
     -- cell 26
     .taskPlaceholder ]⟩

/-- `unnamed/part_001`, second document (chemical properties). -/
def part001Doc1 : Doc :=
  ⟨"part001-1",
   [ -- cell 1
     .importLib "reaktoro",
     .mkDatabase "db" "phreeqc.dat",
     .mkPhase "solution",
     .mkSystem "system" "db" ["solution"],
     .mkState "state" "system",
     .stateSetter "state", .stateSetter "state", .stateSetter "state",
     .stateSetter "state", .stateSetter "state", .stateSetter "state",
     .equilibrateCall "state",
     .printTable,
     -- cell 3
     .mkPropsFromState "props" "state",
     .printTable,
     -- cell 5
     .mkPhase "solution2", .phaseConfigure "solution2",
     .mkPhase "gases", .phaseConfigure "gases",
     .mkPhase "minerals",
     .mkSystem "system2" "db" ["solution2", "gases", "minerals"],
     .mkState "state2" "system2",
     .stateSetter "state2", .stateSetter "state2", .stateSetter "state2",
     .stateSetter "state2", .stateSetter "state2", .stateSetter "state2",
     .stateSetter "state2", .stateSetter "state2",
     .equilibrateCall "state2",
     .mkPropsFromState "props2" "state2",
     .printTable,
     -- cell 7
     .stateSetter "state2", .stateSetter "state2", .stateSetter "state2",
     .propsUpdate "props2" "state2",
     .printTable,
     -- cell 9
     .printTable,
     -- cell 11
     .taskPlaceholder ]⟩

/-- All notebook documents of the repository, in directory order. -/
def repoDocs : List Doc :=
  [ overviewDoc,
    evianDoc, phco2seaDoc0, phco2seaDoc1, phco2seaDoc2, phcontamDoc,
    statesDoc0, statesDoc1, databasesDoc, materialsDoc,
    customconDoc, fugacityDoc, phchargeDoc, fixedphDoc, phaseamountDoc,
    fixedvuDoc0, fixedvuDoc1,
    ionexDoc,
    calciteDoc0, calciteDoc1, tablesaltDoc0, tablesaltDoc1,
    part000Doc, part001Doc0, part001Doc1 ]

/-- All statements of the repository. -/
def repoStmts : List SKind :=
  (repoDocs.map Doc.stmts).flatten


/-! ## Claim theorems over the inventory and the models -/

/-- Claim C2: the repository contains no original algorithmic
implementation: every statement of every notebook document only
assembles calls into the external Reaktoro library, prints tables,
plots, or performs arithmetic glue on fetched values; no statement
implements Gibbs energy minimization, an activity model, database
parsing, phase equilibrium or any other algorithm in-repo. -/
theorem C2_no_original_algorithmic_implementation :
    repoDocs.all (fun d => d.stmts.all isAssemblyOnly) = true := by decide

/-- Claim C3: solver failures surface only through the
`result.optima.succeeded` flag, inspected in exactly three cells across
the repository; no statement retries a failed solve, and in the modelled
flag-checking cell the solver runs exactly once and the cell sequence
proceeds to the same length whether the flag is true or false (only the
printed message differs). -/
theorem C3_failure_reporting_flag_only :
    repoStmts.countP isInspectSucceeded = 3 ∧
    repoStmts.countP isRetrySolve = 0 ∧
    (∀ b : Bool, (checkedSolveTrace b).countP isSolveEv = 1 ∧
      (checkedSolveTrace b).length = (checkedSolveTrace true).length) := by
  refine ⟨by decide, by decide, ?_⟩
  intro b
  cases b <;> exact ⟨rfl, rfl⟩

/-- Claim C4: `solver.solve` mutates the caller-owned state in place:
after the solve statement the caller's state slot holds the converged
temperature, pressure and per-species amounts, `state.props()` reads
those converged values from the same state, and the value returned to
the caller is only the result report with the success flag (no
replacement state object). -/
theorem C4_solve_mutates_state_in_place (out : SolveOutcome)
    (cond : ConditionsM) (env : CallerEnv) :
    (runSolveStep out cond env).state.temperature =
        cond.temperature.getD env.state.temperature ∧
    (runSolveStep out cond env).state.pressure =
        cond.pressure.getD env.state.pressure ∧
    (runSolveStep out cond env).state.amounts = out.amounts ∧
    (runSolveStep out cond env).result = some (solveReturn out) ∧
    solveReturn out = ⟨⟨out.succeeded⟩⟩ ∧
    stateProps (runSolveStep out cond env).state =
      (cond.temperature.getD env.state.temperature,
       cond.pressure.getD env.state.pressure, out.amounts) :=
  ⟨rfl, rfl, rfl, rfl, rfl, rfl⟩

/-- Counterexample to claim C5 as stated: in
`equilibrium-with-fixed-volume-internal-energy.ipynb` the conditions
object receives lower/upper bounds for temperature and pressure, but its
specs object declares only the inputs V and U — so it is false that
numeric values or bounds are set only for previously declared inputs. -/
theorem C5_counterexample :
    condClaimStrict fixedvuDoc0.stmts = false := by decide

/-- Claim C5 (amended): every conditions object is constructed from
exactly one specs object, conditions and specs objects are paired one to
one, and numeric values are set only for inputs previously declared in
the paired specs object; bounds, by contrast, target control variables
(temperature, pressure) deliberately left undeclared. -/
theorem C5_conditions_values_declared_and_paired :
    repoDocs.all (fun d =>
      condValuesDeclared d.stmts && conditionsPairedOneToOne d.stmts) = true := by
  decide

/-- Counterexample to claim C6 as stated: in
`equilibrium-with-custom-constraints.ipynb` a `ChemicalProps(state)`
object is computed from the initial state (to obtain the V0 and U0
targets) before any solver exists and before any solve has run, so the
notebooks do not always place property computation after the solve
stage. -/
theorem C6_counterexample :
    strictOrdered customconDoc.stmts = false := by decide

/-- Claim C6 (amended): every notebook document is dependency-ordered:
a database is constructed before the system built from it, the system
before the states/specs built from it, a specs object before its
conditions object and specs-based solver, and a solver and state before
any solve using them; property objects are computed only from objects
that already exist, though possibly from a pre-solve initial state. -/
theorem C6_dataflow_dependency_ordered :
    repoDocs.all (fun d => depOrdered d.stmts) = true := by decide

/-- Claim C7: no statement in any notebook mutates an existing
ChemicalSystem; activity models (and phase names) are configured only on
phase objects not yet consumed by a system construction, and the
activity-model change in `unnamed/part_001` is realized by building new
phase objects and constructing a new ChemicalSystem from them. -/
theorem C7_chemical_system_immutable :
    repoDocs.all (fun d =>
      (d.stmts.countP isSystemMutation == 0) && phaseCfgOk d.stmts) = true ∧
    rebuildPattern part001Doc0.stmts = true :=
  ⟨by decide, by decide⟩

/-- Claim C8 (evaluation of the modelled default state): a freshly
constructed state has temperature 298.15 K (25 degrees Celsius),
pressure 10^5 Pa and every species amount 10^-16 mol, a small positive
value; and 25 degrees Celsius equals 298.15 K, not the 273.15 K printed
in the notebook's default-initialization note, which therefore
contradicts its own Celsius figure. -/
theorem C8_default_state_evaluation :
    (ChemicalState.init creatingStatesSystem).temperature = 29815/100 ∧
    (ChemicalState.init creatingStatesSystem).pressure = 100000 ∧
    (∀ a ∈ (ChemicalState.init creatingStatesSystem).amounts, a = 1/10^16) ∧
    (0 : ℚ) < 1/10^16 ∧
    kelvinOfCelsius 25 = 29815/100 ∧
    kelvinOfCelsius 25 ≠ 27315/100 := by
  refine ⟨by norm_num [ChemicalState.init, kelvinOfCelsius], rfl, ?_,
    by norm_num, by norm_num [kelvinOfCelsius], by norm_num [kelvinOfCelsius]⟩
  intro a ha
  simp only [ChemicalState.init, creatingStatesSystem, List.map_cons,
    List.map_nil, List.mem_cons, List.not_mem_nil, or_false] at ha
  rcases ha with h | h | h | h | h <;> rw [h]

/-- Claim C9: the dissolved amount `n0Calcite - nCalcite` computed by
the solubility loop is independent of the initial calcite amount, for
every initial amount at or above the dissolution capacity of the water
at the given temperature and pressure (it always equals that
capacity). -/
theorem C9_dissolved_amount_indep_initial (cap n0 n0' : ℚ)
    (h : cap ≤ n0) (h' : cap ≤ n0') :
    dissolvedCalcite cap n0 = dissolvedCalcite cap n0' ∧
    dissolvedCalcite cap n0 = cap := by
  have e : ∀ m : ℚ, cap ≤ m → dissolvedCalcite cap m = cap := by
    intro m hm
    unfold dissolvedCalcite equilibratedCalciteAmount
    rw [sub_sub_cancel, min_eq_right hm]
  rw [e n0 h, e n0' h']
  exact ⟨rfl, rfl⟩

/-- Witness for C9 at a concrete capacity and two concrete initial
amounts above it, matching the notebook's tenfold-excess setup. -/
theorem C9_dissolved_amount_indep_initial_witness :
    dissolvedCalcite (29/250) 10 = dissolvedCalcite (29/250) 20 ∧
    dissolvedCalcite (29/250) 10 = 29/250 :=
  C9_dissolved_amount_indep_initial (29/250) 10 20
    (by norm_num) (by norm_num)

theorem setTP_inputs (c : ConditionsM) (T P : ℚ) :
    (setTP c T P).inputs = c.inputs := rfl

theorem foldl_setTP_inputs (g : List (ℚ × ℚ)) :
    ∀ c : ConditionsM,
      (g.foldl (fun c p => setTP c p.1 p.2) c).inputs = c.inputs := by
  induction g with
  | nil => intro c; rfl
  | cons p ps ih =>
      intro c
      rw [List.foldl_cons, ih (setTP c p.1 p.2), setTP_inputs]

/-- Claim C10: a whole grid of sequential solves reuses the one
specs/conditions/solver triple built before the loop: after any grid,
the specs and the solver are unchanged, the shared conditions object
differs from its initial contents only by the explicit temperature and
pressure setters applied in the loop (its other inputs are untouched),
and every grid point produced exactly one dataframe row. -/
theorem C10_solver_specs_conditions_reused (oracle : ConditionsM → ℚ)
    (env : LoopEnv) (g : List (ℚ × ℚ)) :
    (runGrid oracle env g).1.specsInputs = env.specsInputs ∧
    (runGrid oracle env g).1.solverSpecs = env.solverSpecs ∧
    (runGrid oracle env g).1.conditions =
      g.foldl (fun c p => setTP c p.1 p.2) env.conditions ∧
    (runGrid oracle env g).1.conditions.inputs = env.conditions.inputs ∧
    (runGrid oracle env g).2.length = g.length := by
  induction g generalizing env with
  | nil => exact ⟨rfl, rfl, rfl, rfl, rfl⟩
  | cons p ps ih =>
      have h := ih { env with conditions := setTP env.conditions p.1 p.2 }
      have hc : (runGrid oracle env (p :: ps)).1.conditions =
          (p :: ps).foldl (fun c q => setTP c q.1 q.2) env.conditions := by
        simpa [runGrid, gridStep] using h.2.2.1
      refine ⟨h.1, h.2.1, hc, ?_, ?_⟩
      · rw [hc]
        exact foldl_setTP_inputs (p :: ps) env.conditions
      · simp only [runGrid, gridStep, List.length_cons]
        rw [h.2.2.2.2]

end Rkt
